import Mathlib

/-!
Shallow embedding of the forward (strike-resetting) option engine decorators
from ql/PricingEngines/forwardengines.hpp and of the Monte Carlo European
pricer constructor from ql/Pricers/mceuropean.cpp.

Modelling conventions:
* C++ `double`, `Time` and `Rate` are embedded as rationals.
* `Date` is its integer serial number; the C++ sentinels `Null<double>`
  (`DBL_MAX`) and `Null<Date>` (the default-constructed date, serial 0) are
  embedded as their concrete values, so the sentinel comparisons of the
  source are ordinary equality tests.
* Term structures and volatility surfaces are symbolic values; the
  curve operations the engines consume (reference date, year fraction,
  discount factor, zero yield) are an explicit interpretation record
  `CurveOps`, mirroring the external-collaborator interface.
* Double division is embedded as guarded division: the error branch stands
  for the undefined C++ division by zero.
-/

abbrev Time := ℚ

abbrev Rate := ℚ

abbrev Date := Int

/-- The `Null<double>` sentinel: `DBL_MAX = (2 - 2⁻⁵²) · 2¹⁰²³`. -/
def nullDouble : ℚ := 2 ^ 1024 - 2 ^ 971

/-- The `Null<Date>` sentinel: the default-constructed date, serial number 0. -/
def nullDate : Date := 0

inductive OptionType where
  | call
  | put
  deriving DecidableEq, Repr

/-- Symbolic term structures: market curves plus the implied (time-shifted)
views built by `TermStructures::ImpliedTermStructure(curve, newTodaysDate,
newReferenceDate)`. -/
inductive Curve where
  | market (id : ℕ)
  | implied (orig : Curve) (newTodaysDate : Date) (newReferenceDate : Date)
  deriving DecidableEq, Repr

/-- Symbolic volatility surfaces: market surfaces plus the implied views
built by `VolTermStructures::ImpliedVolTermStructure(surface, newDate)`. -/
inductive VolSurface where
  | market (id : ℕ)
  | implied (orig : VolSurface) (newDate : Date)
  deriving DecidableEq, Repr

/-- Interpretation of the curve operations consumed by the engines:
`referenceDate()`, `dayCounter().yearFraction(d1, d2)`, `discount(d)` and
`zeroYield(d)`. -/
structure CurveOps where
  referenceDate : Curve → Date
  yearFraction : Curve → Date → Date → Time
  discount : Curve → Date → ℚ
  zeroYield : Curve → Date → Rate

/-- The fields of the wrapped (plain-option) `ArgumentsType` that
`forwardengines.hpp` reads and writes. -/
structure VanillaArguments where
  type : OptionType
  underlying : ℚ
  strike : ℚ
  dividendTS : Curve
  riskFreeTS : Curve
  volTS : VolSurface
  exerciseType : ℕ
  stoppingTimes : List Time
  maturity : Time
  deriving DecidableEq, Repr

/-- `ForwardOptionArguments<ArgumentsType>`: the base variant's fields plus
`moneyness` and `resetDate`, default-initialised to the null sentinels. -/
structure ForwardOptionArguments extends VanillaArguments where
  moneyness : ℚ
  resetDate : Date
  deriving DecidableEq, Repr

/-- The `Time resetTime = riskFreeTS->dayCounter().yearFraction(
riskFreeTS->referenceDate(), resetDate)` computation, shared by
`validate` and both `getOriginalResults` bodies. -/
def resetTimeOf (ops : CurveOps) (c : Curve) (d : Date) : Time :=
  ops.yearFraction c (ops.referenceDate c) d

/-- `ForwardOptionArguments<ArgumentsType>::validate()`: chains to the base
variant's validation (abstracted as `baseValidate`, since `ArgumentsType`
is a template parameter), then performs the five `QL_REQUIRE` checks of the
source in order. -/
def ForwardOptionArguments.validate (ops : CurveOps)
    (baseValidate : VanillaArguments → Except String Unit)
    (a : ForwardOptionArguments) : Except String Unit :=
  match baseValidate a.toVanillaArguments with
  | Except.error m => Except.error m
  | Except.ok _ =>
    if a.moneyness = nullDouble then
      Except.error "ForwardOptionArguments::validate() : null moneyness given"
    else if a.moneyness ≤ 0 then
      Except.error
        "ForwardOptionArguments::validate() : negative or zero moneyness given"
    else if a.resetDate = nullDate then
      Except.error "ForwardOptionArguments::validate() : null reset date given"
    else
      let resetTime := resetTimeOf ops a.riskFreeTS a.resetDate
      if resetTime < 0 then
        Except.error
          "ForwardOptionArguments::validate() : negative reset time given"
      else if a.maturity < resetTime then
        Except.error
          "ForwardOptionArguments::validate() : reset time greater than maturity"
      else
        Except.ok ()

/-- `PlainOptionResults`-shaped results record: the Greeks set by the
decorators plus `strikeSensitivity`, which they only read. -/
structure Results where
  value : ℚ
  delta : ℚ
  gamma : ℚ
  theta : ℚ
  vega : ℚ
  rho : ℚ
  dividendRho : ℚ
  strikeSensitivity : ℚ
  deriving DecidableEq, Repr

/-- The field-copying part of
`ForwardEngine::setOriginalArguments()`: the new value of the wrapped
engine's Arguments, built from the decorator's Arguments and the previous
wrapped Arguments. -/
def ForwardEngine.setOriginalArguments (a : ForwardOptionArguments)
    (orig : VanillaArguments) : VanillaArguments :=
  { orig with
    type := a.type
    underlying := a.underlying
    strike := a.moneyness * a.underlying
    dividendTS := Curve.implied a.dividendTS a.resetDate a.resetDate
    riskFreeTS := Curve.implied a.riskFreeTS a.resetDate a.resetDate
    volTS := VolSurface.implied a.volTS a.resetDate
    exerciseType := a.exerciseType
    stoppingTimes := a.stoppingTimes
    maturity := a.maturity }

/-- The observable state `setOriginalArguments` may touch: the decorator's
own Arguments and Results (`arguments_`, `results_`) and the wrapped
engine's Arguments (`*originalArguments_`). -/
structure ForwardDecoratorState where
  arguments : ForwardOptionArguments
  results : Results
  originalArguments : VanillaArguments
  deriving DecidableEq, Repr

/-- `ForwardEngine::setOriginalArguments()` as a state transformer: writes
the wrapped Arguments and ends with `originalArguments_->validate()`,
whose error (the wrapped `ArgumentsType::validate()` is abstracted as
`baseValidate`) propagates. -/
def ForwardEngine.setOriginalArgumentsRun
    (baseValidate : VanillaArguments → Except String Unit)
    (s : ForwardDecoratorState) : Except String ForwardDecoratorState :=
  let o := ForwardEngine.setOriginalArguments s.arguments s.originalArguments
  match baseValidate o with
  | Except.error m => Except.error m
  | Except.ok _ => Except.ok { s with originalArguments := o }

/-- `ForwardEngine::getOriginalResults()`: the decorator's Results after the
sequential field assignments of the source, given the wrapped engine's
Results `orig` and the decorator's previous Results `r` (the source only
assigns the seven Greeks; `strikeSensitivity` keeps its prior value). -/
def ForwardEngine.getOriginalResults (ops : CurveOps)
    (a : ForwardOptionArguments) (orig : Results) (r : Results) : Results :=
  let resetTime := resetTimeOf ops a.riskFreeTS a.resetDate
  let discQ := ops.discount a.dividendTS a.resetDate
  let r := { r with value := discQ * orig.value }
  let r := { r with delta :=
    discQ * (orig.delta + a.moneyness * orig.strikeSensitivity) }
  let r := { r with gamma := 0 }
  let r := { r with theta := ops.zeroYield a.dividendTS a.resetDate * r.value }
  let r := { r with vega := discQ * orig.vega }
  let r := { r with rho := discQ * orig.rho }
  { r with dividendRho := - resetTime * r.value + discQ * orig.dividendRho }

/-- `ForwardPerformanceEngine::getOriginalResults()`: `discR` is the
risk-free discount factor at `resetDate` divided by the underlying
(`discR /= arguments_.underlying`, unguarded in the source; the guarded
error branch embeds the undefined division by zero). -/
def ForwardPerformanceEngine.getOriginalResults (ops : CurveOps)
    (a : ForwardOptionArguments) (orig : Results) (r : Results) :
    Except String Results :=
  let resetTime := resetTimeOf ops a.riskFreeTS a.resetDate
  if a.underlying = 0 then
    Except.error "division by zero in discR /= arguments_.underlying"
  else
    let discR := ops.discount a.riskFreeTS a.resetDate / a.underlying
    let temp := orig.value
    let r := { r with value := discR * temp }
    let r := { r with delta := 0 }
    let r := { r with gamma := 0 }
    let r := { r with theta :=
      (ops.zeroYield a.riskFreeTS a.resetDate * r.value) }
    let r := { r with vega := discR * orig.vega }
    let r := { r with rho := - resetTime * r.value + discR * orig.rho }
    Except.ok { r with dividendRho := discR * orig.dividendRho }

/-- Observable calls `calculate()` makes on the decorator and the wrapped
engine. -/
inductive EngineEvent where
  | reset
  | setOriginalArguments
  | originalCalculate
  | getOriginalResults
  deriving DecidableEq, Repr

/-- The statement sequence of `ForwardEngine::calculate()`. -/
def ForwardEngine.calculateTrace : List EngineEvent :=
  [EngineEvent.reset, EngineEvent.setOriginalArguments,
   EngineEvent.originalCalculate, EngineEvent.getOriginalResults]

/-- The statement sequence of `ForwardPerformanceEngine::calculate()`. -/
def ForwardPerformanceEngine.calculateTrace : List EngineEvent :=
  [EngineEvent.setOriginalArguments, EngineEvent.originalCalculate,
   EngineEvent.getOriginalResults]

/-- Abstract wrapped engine: how `reset()` and `calculate()` act on its
internal state (of some type `σ`). -/
structure WrappedEngine (σ : Type) where
  reset : σ → σ
  calculate : σ → σ

/-- Effect of one `calculate()` event on the wrapped engine's state:
`setOriginalArguments` and `getOriginalResults` touch only the Arguments
and the decorator's Results, not the wrapped engine's internal state. -/
def runEvent {σ : Type} (e : WrappedEngine σ) :
    EngineEvent → σ → σ
  | EngineEvent.reset, s => e.reset s
  | EngineEvent.originalCalculate, s => e.calculate s
  | EngineEvent.setOriginalArguments, s => s
  | EngineEvent.getOriginalResults, s => s

/-- Effect of an event sequence on the wrapped engine's state. -/
def runTrace {σ : Type} (e : WrappedEngine σ) (t : List EngineEvent)
    (s : σ) : σ :=
  t.foldl (fun s ev => runEvent e ev s) s

/-- The wrapped engine as the decorator constructor sees it: the outcome of
the two `dynamic_cast`s on `originalEngine_->arguments()` and
`originalEngine_->results()` (`none` = the cast failed, a null pointer). -/
structure WrappedViews where
  castArguments : Option VanillaArguments
  castResults : Option Results
  deriving DecidableEq, Repr

/-- The decorator state the `ForwardEngine` constructor produces: the
wrapped engine handle and the two raw views into it. -/
structure ForwardEngineState where
  originalEngine : WrappedViews
  originalArguments : Option VanillaArguments
  originalResults : Option Results
  deriving DecidableEq, Repr

/-- `ForwardEngine::ForwardEngine(originalEngine)`: `QL_REQUIRE` that the
handle is non-null, then store the results of the two `dynamic_cast`s —
the source never checks them for null. -/
def ForwardEngine.construct (engine : Option WrappedViews) :
    Except String ForwardEngineState :=
  match engine with
  | none =>
    Except.error "ForwardEngine::ForwardEngine : null engine or wrong engine type"
  | some e =>
    Except.ok
      { originalEngine := e
        originalResults := e.castResults
        originalArguments := e.castArguments }

/-- `MonteCarlo::GaussianPathGenerator(drift, variance, time, dimension,
seed)` as configured by the `McEuropean` constructor. -/
structure GaussianPathGenerator where
  drift : ℚ
  variance : ℚ
  time : ℚ
  dimension : ℕ
  seed : Int
  deriving DecidableEq, Repr

/-- `MonteCarlo::EuropeanPathPricer(type, underlying, strike, discount,
antitheticVariance)` as configured by the `McEuropean` constructor. -/
structure EuropeanPathPricer where
  type : OptionType
  underlying : ℚ
  strike : ℚ
  discount : ℚ
  antitheticVariance : Bool
  deriving DecidableEq, Repr

/-- The `MonteCarlo::MonteCarloModel` handle the `McEuropean` constructor
assembles from the path generator and the path pricer. -/
structure MonteCarloModel where
  pathGenerator : GaussianPathGenerator
  pathPricer : EuropeanPathPricer
  deriving DecidableEq, Repr

/-- `McEuropean::McEuropean`: the configuration the constructor builds.
`qlExp` abstracts the `QL_EXP` floating-point exponential the source calls
to form the discount factor. -/
def McEuropean (type : OptionType) (underlying strike : ℚ)
    (dividendYield riskFreeRate : Rate) (residualTime volatility : ℚ)
    (antitheticVariance : Bool) (seed : Int) (qlExp : ℚ → ℚ) :
    MonteCarloModel :=
  let mu := riskFreeRate - dividendYield - (1 / 2) * volatility * volatility
  { pathGenerator :=
      { drift := mu
        variance := volatility * volatility
        time := residualTime
        dimension := 1
        seed := seed }
    pathPricer :=
      { type := type
        underlying := underlying
        strike := strike
        discount := qlExp (-(riskFreeRate * residualTime))
        antitheticVariance := antitheticVariance } }

/-- Modelled from the spec: the construction-time validation of the Monte
Carlo European engine (the `GaussianPathGenerator` sources that perform it
are not under src/) — "a zero or negative `residualTime` or `volatility`
is a construction-time validation error". -/
def McEuropeanChecked (type : OptionType) (underlying strike : ℚ)
    (dividendYield riskFreeRate : Rate) (residualTime volatility : ℚ)
    (antitheticVariance : Bool) (seed : Int) (qlExp : ℚ → ℚ) :
    Except String MonteCarloModel :=
  if residualTime ≤ 0 then
    Except.error "non-positive residual time given"
  else if volatility ≤ 0 then
    Except.error "non-positive volatility given"
  else
    Except.ok (McEuropean type underlying strike dividendYield riskFreeRate
      residualTime volatility antitheticVariance seed qlExp)

/-- Modelled from the spec: a `calculate()` run of the Monte Carlo model (the
`MonteCarloModel`/`McPricer` sources are not under src/) — the seed is fixed
at construction and never reseeded per call, the path sequence (`samplePath`,
a deterministic function of the seed) is drawn from that stored seed, and the
running mean of the discounted-payoff samples is exposed as the value. The
model state returned alongside the value is unchanged. -/
def MonteCarloModel.calculate (m : MonteCarloModel)
    (samplePath : Int → ℕ → ℚ) (n : ℕ) : MonteCarloModel × ℚ :=
  (m, (List.range n).foldl
        (fun acc i => acc + samplePath m.pathGenerator.seed i) 0 / n)

/-- The spec's wording of the `ForwardEngine` result adjustment, stated
field by field from the specification text for comparison with the
source-derived `ForwardEngine.getOriginalResults`. -/
def specForwardResults (ops : CurveOps) (a : ForwardOptionArguments)
    (w : Results) (prior : Results) : Results :=
  let discQ := ops.discount a.dividendTS a.resetDate
  let resetTime := ops.yearFraction a.riskFreeTS
    (ops.referenceDate a.riskFreeTS) a.resetDate
  { value := discQ * w.value
    delta := discQ * (w.delta + a.moneyness * w.strikeSensitivity)
    gamma := 0
    theta := ops.zeroYield a.dividendTS a.resetDate * (discQ * w.value)
    vega := discQ * w.vega
    rho := discQ * w.rho
    dividendRho := - resetTime * (discQ * w.value) + discQ * w.dividendRho
    strikeSensitivity := prior.strikeSensitivity }

/-- The spec's wording of the `ForwardPerformanceEngine` result adjustment,
stated field by field from the specification text for comparison with the
source-derived `ForwardPerformanceEngine.getOriginalResults`. -/
def specForwardPerformanceResults (ops : CurveOps)
    (a : ForwardOptionArguments) (w : Results) (prior : Results) : Results :=
  let discR := ops.discount a.riskFreeTS a.resetDate / a.underlying
  let resetTime := ops.yearFraction a.riskFreeTS
    (ops.referenceDate a.riskFreeTS) a.resetDate
  { value := discR * w.value
    delta := 0
    gamma := 0
    theta := ops.zeroYield a.riskFreeTS a.resetDate * (discR * w.value)
    vega := discR * w.vega
    rho := - resetTime * (discR * w.value) + discR * w.rho
    dividendRho := discR * w.dividendRho
    strikeSensitivity := prior.strikeSensitivity }

/-- A concrete curve interpretation for witnesses: reference date 0,
year fractions counted as one unit per serial day, discount 1/2 and zero
yield 3/100 everywhere. -/
def testOps : CurveOps :=
  { referenceDate := fun _ => 0
    yearFraction := fun _ d1 d2 => ((d2 - d1 : Int) : ℚ)
    discount := fun _ _ => 1 / 2
    zeroYield := fun _ _ => 3 / 100 }

/-- A base-variant validation that always passes, isolating the checks the
forward layer itself adds. -/
def trivialValidate : VanillaArguments → Except String Unit :=
  fun _ => Except.ok ()

/-- Concrete wrapped-engine arguments for witnesses. -/
def testVanillaArgs : VanillaArguments :=
  { type := OptionType.call
    underlying := 100
    strike := 95
    dividendTS := Curve.market 0
    riskFreeTS := Curve.market 1
    volTS := VolSurface.market 0
    exerciseType := 0
    stoppingTimes := [1]
    maturity := 2 }

/-- Concrete forward-option arguments for witnesses: valid under
`testOps` (moneyness 1, reset date 1, reset time 1 ≤ maturity 2). -/
def testForwardArgs : ForwardOptionArguments :=
  { toVanillaArguments := testVanillaArgs
    moneyness := 1
    resetDate := 1 }

/-- Forward-option arguments with a zero underlying that still pass every
check of the forward layer's validation. -/
def zeroUnderlyingArgs : ForwardOptionArguments :=
  { toVanillaArguments := { testVanillaArgs with underlying := 0 }
    moneyness := 1
    resetDate := 1 }

/-- Concrete wrapped-engine results for witnesses. -/
def testWrappedResults : Results :=
  { value := 10
    delta := 1 / 2
    gamma := 4
    theta := 5
    vega := 2
    rho := 1
    dividendRho := 2 / 5
    strikeSensitivity := -(3 / 10) }

/-- Concrete prior decorator results for witnesses. -/
def testPriorResults : Results :=
  { value := 7
    delta := 7
    gamma := 7
    theta := 7
    vega := 7
    rho := 7
    dividendRho := 7
    strikeSensitivity := 7 }

/-- A wrapped engine whose two `dynamic_cast`s both fail. -/
def badWrappedViews : WrappedViews :=
  { castArguments := none
    castResults := none }

/-- A concrete wrapped engine over state `ℕ`: `reset` clears the state to
0, `calculate` bumps it. -/
def testWrappedEngine : WrappedEngine ℕ :=
  { reset := fun _ => 0
    calculate := fun n => n + 1 }

/-- The spec's wording of the `McEuropean` construction: drift
`μ = riskFreeRate − dividendYield − ½σ²`, variance `σ²`, one factor, the
caller-supplied seed, and a pricer discounting by `exp(−r·T)` with the
antithetic flag. -/
def specMcEuropeanConfig (type : OptionType) (underlying strike : ℚ)
    (dividendYield riskFreeRate : Rate) (residualTime volatility : ℚ)
    (antitheticVariance : Bool) (seed : Int) (qlExp : ℚ → ℚ) :
    MonteCarloModel :=
  { pathGenerator :=
      { drift := riskFreeRate - dividendYield - volatility ^ 2 / 2
        variance := volatility ^ 2
        time := residualTime
        dimension := 1
        seed := seed }
    pathPricer :=
      { type := type
        underlying := underlying
        strike := strike
        discount := qlExp (-(riskFreeRate * residualTime))
        antitheticVariance := antitheticVariance } }

/-- A concrete Monte Carlo model for witnesses. -/
def testMcModel : MonteCarloModel :=
  McEuropean OptionType.call 100 100 0 (5 / 100) 1 (1 / 5) true 42
    (fun _ => 1)

/-- A concrete deterministic path-sample sequence for witnesses. -/
def testSamplePath : Int → ℕ → ℚ :=
  fun seed i => seed + i

/-- Claim C1: for every curve interpretation, forward-option Arguments
state, wrapped Results and prior decorator Results,
`ForwardEngine::getOriginalResults` sets the decorator's Results exactly as
the spec's formulas: `value = discQ * wrapped.value`,
`delta = discQ * (wrapped.delta + moneyness * wrapped.strikeSensitivity)`,
`gamma = 0`, `theta = dividendZeroYield(resetDate) * value`,
`vega = discQ * wrapped.vega`, `rho = discQ * wrapped.rho` and
`dividendRho = -resetTime * value + discQ * wrapped.dividendRho`, with
`discQ` the dividend-curve discount at `resetDate` and `resetTime` the
year fraction from the risk-free curve's reference date to `resetDate`. -/
theorem forwardEngine_getOriginalResults_correct (ops : CurveOps)
    (a : ForwardOptionArguments) (orig r : Results) :
    ForwardEngine.getOriginalResults ops a orig r =
      specForwardResults ops a orig r := rfl

/-- Claim C2: for every forward-option Arguments state with a non-zero
underlying, `ForwardPerformanceEngine::getOriginalResults` sets the
decorator's Results exactly as the spec's formulas: `value = discR *
wrapped.value`, `delta = 0`, `gamma = 0`,
`theta = riskFreeZeroYield(resetDate) * value`,
`vega = discR * wrapped.vega`, `rho = -resetTime * value + discR *
wrapped.rho` and `dividendRho = discR * wrapped.dividendRho`, with `discR`
the risk-free discount at `resetDate` divided by the underlying. -/
theorem forwardPerformance_getOriginalResults_correct (ops : CurveOps)
    (a : ForwardOptionArguments) (orig r : Results)
    (h : a.underlying ≠ 0) :
    ForwardPerformanceEngine.getOriginalResults ops a orig r =
      Except.ok (specForwardPerformanceResults ops a orig r) := by
  unfold ForwardPerformanceEngine.getOriginalResults
  rw [if_neg h]
  rfl

/-- Witness for claim C2 at a concrete state with underlying 100. -/
theorem forwardPerformance_getOriginalResults_witness :
    testForwardArgs.underlying ≠ 0 ∧
    ForwardPerformanceEngine.getOriginalResults testOps testForwardArgs
        testWrappedResults testPriorResults =
      Except.ok (specForwardPerformanceResults testOps testForwardArgs
        testWrappedResults testPriorResults) :=
  ⟨by decide,
   forwardPerformance_getOriginalResults_correct testOps testForwardArgs
     testWrappedResults testPriorResults (by decide)⟩

/-- Claim C4: `ForwardEngine::calculate` performs, in order, reset of the
wrapped engine, `setOriginalArguments`, the wrapped engine's `calculate`,
then `getOriginalResults`; `ForwardPerformanceEngine::calculate` performs
the same sequence with the reset removed, so over any wrapped-engine
semantics its run starts from the wrapped engine's prior state `s`
(`calculate s`) where the base decorator starts from the cleared state
(`calculate (reset s)`). -/
theorem forward_calculate_traces_correct :
    ForwardEngine.calculateTrace =
      [EngineEvent.reset, EngineEvent.setOriginalArguments,
       EngineEvent.originalCalculate, EngineEvent.getOriginalResults] ∧
    ForwardPerformanceEngine.calculateTrace =
      ForwardEngine.calculateTrace.erase EngineEvent.reset ∧
    EngineEvent.reset ∉ ForwardPerformanceEngine.calculateTrace ∧
    ∀ (σ : Type) (e : WrappedEngine σ) (s : σ),
      runTrace e ForwardEngine.calculateTrace s = e.calculate (e.reset s) ∧
      runTrace e ForwardPerformanceEngine.calculateTrace s = e.calculate s :=
  ⟨rfl, by decide, by decide, fun σ e s => ⟨rfl, rfl⟩⟩

/-- Claim C5, counterexample: a non-null wrapped engine on which both
`dynamic_cast`s fail is accepted by the `ForwardEngine` constructor, which
returns a decorator whose views are both null — the source never checks
the casts. -/
theorem forwardEngine_construct_claim_false :
    badWrappedViews.castArguments = none ∧
    badWrappedViews.castResults = none ∧
    ForwardEngine.construct (some badWrappedViews) =
      Except.ok
        { originalEngine := badWrappedViews
          originalArguments := none
          originalResults := none } :=
  ⟨rfl, rfl, rfl⟩

/-- Claim C5, amended: the `ForwardEngine` constructor raises its error
exactly when the engine handle itself is null; for every non-null handle
it succeeds and stores the raw downcast results unchecked, so failed
downcasts yield a decorator with null views. -/
theorem forwardEngine_construct_amended :
    ForwardEngine.construct none =
      Except.error
        "ForwardEngine::ForwardEngine : null engine or wrong engine type" ∧
    ∀ e : WrappedViews,
      ForwardEngine.construct (some e) =
        Except.ok
          { originalEngine := e
            originalArguments := e.castArguments
            originalResults := e.castResults } :=
  ⟨rfl, fun e => rfl⟩

/-- Claim C6: `ForwardEngine::setOriginalArguments` copies the option type,
underlying, exercise type, stopping times and maturity into the wrapped
Arguments, sets the wrapped strike to `moneyness * underlying`, replaces
the curves and the volatility surface with implied views anchored at
`resetDate`, then runs the wrapped Arguments' validation, propagating its
error; on success the decorator's own Arguments and Results are unchanged. -/
theorem forwardEngine_setOriginalArguments_correct
    (bv : VanillaArguments → Except String Unit)
    (s : ForwardDecoratorState) :
    ForwardEngine.setOriginalArguments s.arguments s.originalArguments =
      { type := s.arguments.type
        underlying := s.arguments.underlying
        strike := s.arguments.moneyness * s.arguments.underlying
        dividendTS := Curve.implied s.arguments.dividendTS
          s.arguments.resetDate s.arguments.resetDate
        riskFreeTS := Curve.implied s.arguments.riskFreeTS
          s.arguments.resetDate s.arguments.resetDate
        volTS := VolSurface.implied s.arguments.volTS s.arguments.resetDate
        exerciseType := s.arguments.exerciseType
        stoppingTimes := s.arguments.stoppingTimes
        maturity := s.arguments.maturity } ∧
    ForwardEngine.setOriginalArgumentsRun bv s =
      (match bv (ForwardEngine.setOriginalArguments s.arguments
                  s.originalArguments) with
       | Except.error m => Except.error m
       | Except.ok _ =>
         Except.ok
           { arguments := s.arguments
             results := s.results
             originalArguments :=
               ForwardEngine.setOriginalArguments s.arguments
                 s.originalArguments }) :=
  ⟨rfl, rfl⟩

/-- Claim C8: the `McEuropean` constructor configures the path generator
with drift `riskFreeRate - dividendYield - volatility^2 / 2`, variance
`volatility^2`, the residual time, exactly one factor and the
caller-supplied seed, and the path pricer with the discounted payoff
factor `exp(-(riskFreeRate * residualTime))` and the antithetic flag. -/
theorem mcEuropean_constructor_correct (type : OptionType)
    (underlying strike : ℚ) (dividendYield riskFreeRate : Rate)
    (residualTime volatility : ℚ) (antitheticVariance : Bool) (seed : Int)
    (qlExp : ℚ → ℚ) :
    McEuropean type underlying strike dividendYield riskFreeRate
        residualTime volatility antitheticVariance seed qlExp =
      specMcEuropeanConfig type underlying strike dividendYield riskFreeRate
        residualTime volatility antitheticVariance seed qlExp := by
  simp only [McEuropean, specMcEuropeanConfig, MonteCarloModel.mk.injEq,
    GaussianPathGenerator.mk.injEq, EuropeanPathPricer.mk.injEq, and_true,
    true_and]
  constructor <;> ring

/-- Claim C9: the Monte Carlo European engine (with the spec-modelled
construction-time validation of the path generator) is constructed exactly
when the residual time and the volatility are both strictly positive;
a zero or negative value of either is rejected at construction time. -/
theorem mcEuropean_construction_validation (type : OptionType)
    (underlying strike : ℚ) (dividendYield riskFreeRate : Rate)
    (residualTime volatility : ℚ) (antitheticVariance : Bool) (seed : Int)
    (qlExp : ℚ → ℚ) :
    McEuropeanChecked type underlying strike dividendYield riskFreeRate
        residualTime volatility antitheticVariance seed qlExp =
      Except.ok (McEuropean type underlying strike dividendYield
        riskFreeRate residualTime volatility antitheticVariance seed
        qlExp) ↔
    (0 < residualTime ∧ 0 < volatility) := by
  unfold McEuropeanChecked
  split_ifs with h1 h2 <;> simp_all [not_le]

/-- Claim C3: given a passing base-variant validation,
`ForwardOptionArguments::validate` succeeds exactly when the moneyness is
non-null and strictly positive, the reset date is non-null, and the reset
time (year fraction from the risk-free curve's reference date to the reset
date) is non-negative and at most the maturity; every raised error carries
the message naming the offending field, matching a violated condition. -/
theorem forwardArguments_validate_correct (ops : CurveOps)
    (bv : VanillaArguments → Except String Unit)
    (a : ForwardOptionArguments)
    (hbase : bv a.toVanillaArguments = Except.ok ()) :
    (a.validate ops bv = Except.ok () ↔
      (a.moneyness ≠ nullDouble ∧ 0 < a.moneyness ∧
       a.resetDate ≠ nullDate ∧
       0 ≤ resetTimeOf ops a.riskFreeTS a.resetDate ∧
       resetTimeOf ops a.riskFreeTS a.resetDate ≤ a.maturity)) ∧
    (∀ msg : String, a.validate ops bv = Except.error msg →
      ((a.moneyness = nullDouble ∧
         msg = "ForwardOptionArguments::validate() : null moneyness given") ∨
       (a.moneyness ≤ 0 ∧
         msg = "ForwardOptionArguments::validate() : negative or zero moneyness given") ∨
       (a.resetDate = nullDate ∧
         msg = "ForwardOptionArguments::validate() : null reset date given") ∨
       (resetTimeOf ops a.riskFreeTS a.resetDate < 0 ∧
         msg = "ForwardOptionArguments::validate() : negative reset time given") ∨
       (a.maturity < resetTimeOf ops a.riskFreeTS a.resetDate ∧
         msg = "ForwardOptionArguments::validate() : reset time greater than maturity"))) := by
  unfold ForwardOptionArguments.validate
  simp only [hbase]
  constructor
  · split_ifs with h1 h2 h3 h4 h5 <;> simp_all [not_le, not_lt]
  · intro msg hmsg
    split_ifs at hmsg with h1 h2 h3 h4 h5 <;> simp_all

/-- Witness for claim C3 at a concrete valid state: moneyness 1, reset
date 1 (reset time 1 under `testOps`), maturity 2, trivially passing base
validation. -/
theorem forwardArguments_validate_witness :
    trivialValidate testForwardArgs.toVanillaArguments = Except.ok () ∧
    ((testForwardArgs.validate testOps trivialValidate = Except.ok () ↔
      (testForwardArgs.moneyness ≠ nullDouble ∧
       0 < testForwardArgs.moneyness ∧
       testForwardArgs.resetDate ≠ nullDate ∧
       0 ≤ resetTimeOf testOps testForwardArgs.riskFreeTS
             testForwardArgs.resetDate ∧
       resetTimeOf testOps testForwardArgs.riskFreeTS
           testForwardArgs.resetDate ≤ testForwardArgs.maturity)) ∧
     (∀ msg : String,
       testForwardArgs.validate testOps trivialValidate =
           Except.error msg →
       ((testForwardArgs.moneyness = nullDouble ∧
          msg = "ForwardOptionArguments::validate() : null moneyness given") ∨
        (testForwardArgs.moneyness ≤ 0 ∧
          msg = "ForwardOptionArguments::validate() : negative or zero moneyness given") ∨
        (testForwardArgs.resetDate = nullDate ∧
          msg = "ForwardOptionArguments::validate() : null reset date given") ∨
        (resetTimeOf testOps testForwardArgs.riskFreeTS
            testForwardArgs.resetDate < 0 ∧
          msg = "ForwardOptionArguments::validate() : negative reset time given") ∨
        (testForwardArgs.maturity <
            resetTimeOf testOps testForwardArgs.riskFreeTS
              testForwardArgs.resetDate ∧
          msg = "ForwardOptionArguments::validate() : reset time greater than maturity")))) :=
  ⟨rfl,
   forwardArguments_validate_correct testOps trivialValidate
     testForwardArgs rfl⟩

/-- Claim C7: when the wrapped engine's `reset` clears its state to a fixed
value, repeating `ForwardEngine::calculate`'s event sequence reproduces the
same wrapped-engine state as running it once; and a `calculate()` run of
the (spec-modelled) Monte Carlo model leaves the model — in particular its
construction-time seed — unchanged, so a repeated run yields the identical
estimate. -/
theorem calculate_repeat_identical (σ : Type) (e : WrappedEngine σ)
    (hreset : ∀ x y : σ, e.reset x = e.reset y)
    (samplePath : Int → ℕ → ℚ) (n : ℕ) (m : MonteCarloModel) :
    (∀ s : σ,
      runTrace e ForwardEngine.calculateTrace
          (runTrace e ForwardEngine.calculateTrace s) =
        runTrace e ForwardEngine.calculateTrace s) ∧
    (m.calculate samplePath n).1 = m ∧
    ((m.calculate samplePath n).1.calculate samplePath n).2 =
      (m.calculate samplePath n).2 ∧
    (m.calculate samplePath n).1.pathGenerator.seed =
      m.pathGenerator.seed := by
  refine ⟨fun s => ?_, rfl, rfl, rfl⟩
  show e.calculate (e.reset (e.calculate (e.reset s))) =
    e.calculate (e.reset s)
  exact congrArg e.calculate (hreset _ _)

/-- Witness for claim C7: the concrete wrapped engine over `ℕ` whose reset
clears to 0, the concrete sample sequence, two samples, the concrete Monte
Carlo model, and starting state 5. -/
theorem calculate_repeat_identical_witness :
    (∀ x y : ℕ, testWrappedEngine.reset x = testWrappedEngine.reset y) ∧
    runTrace testWrappedEngine ForwardEngine.calculateTrace
        (runTrace testWrappedEngine ForwardEngine.calculateTrace 5) =
      runTrace testWrappedEngine ForwardEngine.calculateTrace 5 ∧
    (testMcModel.calculate testSamplePath 2).1 = testMcModel ∧
    ((testMcModel.calculate testSamplePath 2).1.calculate testSamplePath
        2).2 =
      (testMcModel.calculate testSamplePath 2).2 ∧
    (testMcModel.calculate testSamplePath 2).1.pathGenerator.seed =
      testMcModel.pathGenerator.seed :=
  ⟨fun x y => rfl,
   (calculate_repeat_identical ℕ testWrappedEngine (fun x y => rfl)
       testSamplePath 2 testMcModel).1 5,
   (calculate_repeat_identical ℕ testWrappedEngine (fun x y => rfl)
       testSamplePath 2 testMcModel).2.1,
   (calculate_repeat_identical ℕ testWrappedEngine (fun x y => rfl)
       testSamplePath 2 testMcModel).2.2.1,
   (calculate_repeat_identical ℕ testWrappedEngine (fun x y => rfl)
       testSamplePath 2 testMcModel).2.2.2⟩

/-- Claim C10: the forward layer's validation never depends on the
underlying (changing it cannot change the outcome), a state with
underlying 0 passes that validation, and on such a state
`ForwardPerformanceEngine::getOriginalResults` hits the guarded-division
error branch for `discR /= arguments_.underlying` — so a non-zero
underlying is an unstated precondition of the performance decorator. -/
theorem performance_underlying_zero_precondition :
    (∀ (ops : CurveOps) (a : ForwardOptionArguments) (u₁ u₂ : ℚ),
      ForwardOptionArguments.validate ops trivialValidate
          { a with toVanillaArguments :=
              { a.toVanillaArguments with underlying := u₁ } } =
        ForwardOptionArguments.validate ops trivialValidate
          { a with toVanillaArguments :=
              { a.toVanillaArguments with underlying := u₂ } }) ∧
    zeroUnderlyingArgs.underlying = 0 ∧
    ForwardOptionArguments.validate testOps trivialValidate
        zeroUnderlyingArgs = Except.ok () ∧
    ForwardPerformanceEngine.getOriginalResults testOps zeroUnderlyingArgs
        testWrappedResults testPriorResults =
      Except.error "division by zero in discR /= arguments_.underlying" :=
  ⟨fun ops a u₁ u₂ => rfl, rfl,
   by norm_num [ForwardOptionArguments.validate, trivialValidate,
     zeroUnderlyingArgs, testVanillaArgs, testOps, resetTimeOf, nullDouble,
     nullDate],
   rfl⟩
